import Mathlib

/-!
Shallow embedding of the payroll computation core of the `payroll_automation`
repository, together with proofs checking the spec's claims against it.

Python `Decimal` arithmetic is embedded as exact rational (`ℚ`) arithmetic:
every constant in the source has a finite decimal expansion and the only
divisions are by 100 and by the exchange rate, so the rational semantics is
exact.  Python strings are Lean `String`s; `str.lower()` is modelled by
`Char.toLower` (ASCII case-folding, which agrees with Python on every string
the repository manipulates); `needle in hay` and `hay.startswith(needle)` are
modelled by the executable list scans below.
-/

namespace Payroll

/-- Is the first list a leading segment of the second?  Models Python
`hay.startswith(needle)` on the character lists of the two strings. -/
def leadsWith : List Char → List Char → Bool
  | [], _ => true
  | _ :: _, [] => false
  | a :: as, b :: bs => a == b && leadsWith as bs

/-- Does `needle` occur contiguously inside the second list?  Models the
Python membership test `needle in hay` on strings. -/
def occursIn (needle : List Char) : List Char → Bool
  | [] => leadsWith needle []
  | b :: bs => leadsWith needle (b :: bs) || occursIn needle bs

/-- Python `needle in hay` for strings. -/
def strIncl (needle hay : String) : Bool := occursIn needle.data hay.data

/-- Python `hay.startswith(needle)`. -/
def strStarts (needle hay : String) : Bool := leadsWith needle.data hay.data

/-- Python `s.lower()` (ASCII case-folding; agrees with Python's Unicode
lowercasing on all strings appearing in the repository, whose non-ASCII
characters are already lowercase). -/
def strLower (s : String) : String := ⟨s.data.map Char.toLower⟩

/-- Calendar date, as Python `datetime.date`. -/
structure Date where
  year : ℕ
  month : ℕ
  day : ℕ
deriving DecidableEq

/-- Chronological order on dates (Python `date` comparison). -/
def date_le (a b : Date) : Prop :=
  a.year < b.year ∨ (a.year = b.year ∧
    (a.month < b.month ∨ (a.month = b.month ∧ a.day ≤ b.day)))

instance (a b : Date) : Decidable (date_le a b) := by
  unfold date_le; infer_instance

/-- Gregorian leap-year test, as produced by Python `datetime` arithmetic. -/
def isLeapYear (y : ℕ) : Bool :=
  decide (y % 4 = 0 ∧ (y % 100 ≠ 0 ∨ y % 400 = 0))

/-- Number of days in a month, as produced by the source's
`date(year, month + 1, 1) - timedelta(days=1)` computation. -/
def daysInMonth (y m : ℕ) : ℕ :=
  if m = 2 then (if isLeapYear y then 29 else 28)
  else if m = 4 ∨ m = 6 ∨ m = 9 ∨ m = 11 then 30
  else 31

/-- `models/payroll.py` `TaxInfo`. -/
structure TaxInfo where
  tax_card_type : String
  base_tax_rate : ℚ
  additional_tax_rate : ℚ
  income_limit_year : ℚ
  earnings_period_start : ℚ
deriving DecidableEq

/-- `models/payroll.py` `SalaryItem`. -/
structure SalaryItem where
  code : String
  description : String
  quantity : ℚ
  rate : ℚ
  total : ℚ
deriving DecidableEq

/-- `models/payroll.py` `Deduction`. -/
structure Deduction where
  code : String
  description : String
  amount : ℚ
deriving DecidableEq

/-- `models/employee.py` `Employee`. -/
structure Employee where
  employee_id : String
  name : String
  address : String
  bank_details : String
deriving DecidableEq

/-- `models/payroll.py` `PayrollRecord`. -/
structure PayrollRecord where
  employee_id : String
  name : String
  address : String
  pay_period_start : Date
  pay_period_end : Date
  payment_date : Date
  bank_details : String
  tax_info : TaxInfo
  salary_items : List SalaryItem
  deductions : List Deduction
  benefits : List SalaryItem
  tax_withholding : ℚ
  pension_insurance : ℚ
  health_insurance_daily : ℚ
  tax_free_portion : ℚ
  net_payment : ℚ
  gross_salary : ℚ
  year_to_date_gross : ℚ
  year_to_date_tax_free : ℚ
deriving DecidableEq

/-- Description string of the first Swedish deduction in
`api/mock_likeit.py` and `tests/reset_database.py`. -/
def swedish_income_tax_desc : String :=
  "Vähennys palkasta — Ruotsin verot 30% verotettavasta tulosta SEK 20 727,88"

/-- Description string of the second Swedish deduction in
`api/mock_likeit.py` and `tests/reset_database.py`. -/
def swedish_allowance_tax_desc : String :=
  "Vähennys palkasta — Ruotsin verot 30% verotettavista kulukorvauksista SEK 4 217,78"

/-- The zero-amount Finnish-withholding deduction line appended by
`api/mock_likeit.py` (`ENNPID`, amount `Decimal('0')`). -/
def ennpid_deduction : Deduction :=
  ⟨"ENNPID", "Ennakonpidätys (Suomen verokortin poisto)", 0⟩

/-- The Swedish (secondary-jurisdiction) deduction block of
`api/mock_likeit.py` lines 135-160, with the threshold as an explicit
argument because the two call sites in the repository instantiate it
differently: `mock_likeit` hard-codes `Decimal('20727.88')` and
`tests/reset_database.py` hard-codes `Decimal('833.00')`; the 30% rate and
the 217.78 standard deduction are hard-coded identically at both sites. -/
def swedish_deductions (gross_salary threshold : ℚ) : List Deduction :=
  let taxable_in_sweden := gross_salary - threshold
  let swedish_tax_amount :=
    if taxable_in_sweden > 0 then -(taxable_in_sweden * (3/10)) else 0
  let swedish_tax_deduction :=
    if taxable_in_sweden > 0 then -(21778/100 : ℚ) else 0
  if swedish_tax_amount < 0 then
    [⟨"VÄH", swedish_income_tax_desc, swedish_tax_amount⟩,
     ⟨"VÄH", swedish_allowance_tax_desc, swedish_tax_deduction⟩]
  else []

/-- `api/mock_likeit.py` `_generate_payroll_record`.  The five
`random.uniform` / `random.randint` draws are passed as arguments; all other
quantities are the source's hard-coded constants (`base_hourly_rate = 17.00`,
`evening_supplement_rate = 1.41`, `per_diem_rate = 68.00`,
`travel_compensation = 600.00`). -/
def generate_payroll_record (employee : Employee) (year month : ℕ)
    (regular_hours overtime_hours overtime_50_hours evening_hours
     per_diem_days : ℚ) : PayrollRecord :=
  let pay_period_start : Date := ⟨year, month, 1⟩
  let pay_period_end : Date :=
    if month = 12 then ⟨year, 12, 31⟩ else ⟨year, month, daysInMonth year month⟩
  let payment_date : Date :=
    if month = 12 then ⟨year + 1, 1, 15⟩ else ⟨year, month, 25⟩
  let salary_items : List SalaryItem :=
    [⟨"12101", "Aikatyö", regular_hours, 17, regular_hours * 17⟩,
     ⟨"12101_2", "Aikatyö YT", overtime_hours, 17, overtime_hours * 17⟩,
     ⟨"12102", "Ylityö 50%", overtime_50_hours, 17 * (1/2),
       overtime_50_hours * 17 * (1/2)⟩,
     ⟨"12107", "Iltalisä", evening_hours, 141/100, evening_hours * (141/100)⟩]
  let gross_from_salary := (salary_items.map SalaryItem.total).foldl (· + ·) 0
  let benefits : List SalaryItem :=
    [⟨"MK002", "Matkakorvaus verotettava — Elokuu", 1, 600, 600⟩,
     ⟨"PVR003", "Ulkomaan päiväraha", per_diem_days, 68, per_diem_days * 68⟩]
  let tax_free_portion := per_diem_days * 68
  let gross_salary := gross_from_salary + 600
  let swedish_tax_threshold : ℚ := 2072788/100
  let deductions := swedish_deductions gross_salary swedish_tax_threshold
  let base_tax_rate : ℚ := 33/2
  let additional_tax_rate : ℚ := 44
  let income_limit : ℚ := 39800
  let ytd_gross := gross_salary * (month : ℚ)
  let ytd_tax_free := tax_free_portion * (month : ℚ)
  let finnish_tax :=
    if ytd_gross ≤ income_limit then -(gross_salary * base_tax_rate / 100)
    else -(gross_salary * additional_tax_rate / 100)
  let pension_insurance := -(gross_salary * (715/10000))
  let health_insurance := gross_salary * (84/10000)
  let all_deductions := deductions ++ [ennpid_deduction]
  let total_deductions :=
    (all_deductions.map Deduction.amount).foldl (· + ·) 0 + pension_insurance
  let net_payment := gross_salary + total_deductions
  { employee_id := employee.employee_id
    name := employee.name
    address := employee.address
    pay_period_start := pay_period_start
    pay_period_end := pay_period_end
    payment_date := payment_date
    bank_details := employee.bank_details
    tax_info := ⟨"Perus", base_tax_rate, additional_tax_rate, income_limit, ytd_gross⟩
    salary_items := salary_items
    deductions := all_deductions
    benefits := benefits
    tax_withholding := finnish_tax
    pension_insurance := pension_insurance
    health_insurance_daily := health_insurance
    tax_free_portion := tax_free_portion
    net_payment := net_payment
    gross_salary := gross_salary
    year_to_date_gross := ytd_gross
    year_to_date_tax_free := ytd_tax_free }

/-- First employee of `MockLikeitAPI.MOCK_EMPLOYEES`, used for concrete
evaluations. -/
def sam : Employee :=
  ⟨"01012020-123X", "Sam Sample", "Mechelininkatu 10, 00100 Helsinki",
   "IBAN: FI12 3456 7890 1234 56, BIC: NDEAFIHH"⟩

/-- `tests/reset_database.py` `get_pay_periods_for_month`: the repository's
two-periods-per-month scheme, first period days 1-14 paid on the 20th,
second period day 15 to end of month. -/
def get_pay_periods_for_month (year month : ℕ) : List (Date × Date × Date) :=
  [(⟨year, month, 1⟩, ⟨year, month, 14⟩, ⟨year, month, 20⟩),
   (⟨year, month, 15⟩,
    if month = 12 then ⟨year, 12, 31⟩ else ⟨year, month, daysInMonth year month⟩,
    if month = 12 then ⟨year + 1, 1, 5⟩ else ⟨year, month + 1, 5⟩)]

/-- `database/repository.py` `_classify_salary_item`. -/
def classify_salary_item (code : String) : String :=
  if strStarts ("12101") code then "salary"
  else if strStarts ("12102") code then "overtime"
  else if strStarts ("12107") code then "supplement"
  else if strStarts ("MK") code || strStarts ("PVR") code then "benefit"
  else "other"

/-- `database/repository.py` `_classify_deduction`.  Note that the source
never consults `code`: the result is a substring match on the lowercased
description only. -/
def classify_deduction (code description : String) : String :=
  if strIncl ("tax") (strLower description) || strIncl ("vero") (strLower description) then
    "tax"
  else if strIncl ("insurance") (strLower description) ||
      strIncl ("vakuutus") (strLower description) then
    "insurance"
  else "other"

/-- The Swedish-deduction test used by `database/repository.py`
`save_payroll_record` and by both spreadsheet generators: a deduction counts
as Swedish tax iff its description contains `'Swedish'` or `'Ruotsin'`. -/
def is_swedish_deduction (d : Deduction) : Bool :=
  strIncl ("Swedish") d.description || strIncl ("Ruotsin") d.description

/-- `sum(abs(d.amount) for d in record.deductions if 'Swedish' in
d.description or 'Ruotsin' in d.description)` from
`processors/monthly_all_workers_generator.py` `_write_single_record`. -/
def swedish_tax_eur_of (r : PayrollRecord) : ℚ :=
  ((r.deductions.filter is_swedish_deduction).map (fun d => |d.amount|)).foldl (· + ·) 0

/-- The exchange-rate constant `SEK_TO_EUR = Decimal('0.086')`, repeated in
four processor files of the source. -/
def SEK_TO_EUR : ℚ := 86/1000

/-- EUR→SEK conversion as performed at every call site of the source:
division by the fixed rate. -/
def to_secondary (amount rate : ℚ) : ℚ := amount / rate

/-- Modelled from the spec: `toPrimary(amount, rate)` (§4.1 Currency
Converter).  The source converts only EUR→SEK (division by `SEK_TO_EUR`);
the inverse conversion named by the spec's round-trip property does not
appear in `src/`, so it is modelled from the spec's words as the
multiplication by the same fixed rate. -/
def to_primary (amount rate : ℚ) : ℚ := amount * rate

/-- `ansiot_eur` of one record row (`_write_single_record`):
gross salary minus the tax-free portion. -/
def ansiot_eur_of (r : PayrollRecord) : ℚ := r.gross_salary - r.tax_free_portion

/-- `ansiot_sek` of one record row (`_write_single_record`). -/
def ansiot_sek_of (r : PayrollRecord) : ℚ := ansiot_eur_of r / SEK_TO_EUR

/-- `paivarahat_sek` of one record row (`_write_single_record`). -/
def paivarahat_sek_of (r : PayrollRecord) : ℚ := r.tax_free_portion / SEK_TO_EUR

/-- `ansiot_sek_yht` of one record row (`_write_single_record`). -/
def ansiot_sek_yht_of (r : PayrollRecord) : ℚ := ansiot_sek_of r + paivarahat_sek_of r

/-- `travel_comp` of one record (`_write_combined_totals_inline`): benefits
whose code contains `'MK'` or whose lowercased description contains
`'matka'`. -/
def travel_comp_of (r : PayrollRecord) : ℚ :=
  ((r.benefits.filter (fun b =>
      strIncl ("MK") b.code || strIncl ("matka") (strLower b.description))).map
    SalaryItem.total).foldl (· + ·) 0

/-- The per-half running totals dict of `_write_combined_period_data`
(`first_totals` / `second_totals`). -/
structure PeriodTotals where
  ansiot_eur : ℚ
  ansiot_sek : ℚ
  paivarahat_sek : ℚ
  ansiot_sek_yht : ℚ
  vero_eur : ℚ
deriving DecidableEq

/-- One `_write_single_record` call's `# Update totals` block. -/
def update_period_totals (t : PeriodTotals) (r : PayrollRecord) : PeriodTotals :=
  ⟨t.ansiot_eur + ansiot_eur_of r,
   t.ansiot_sek + ansiot_sek_of r,
   t.paivarahat_sek + paivarahat_sek_of r,
   t.ansiot_sek_yht + ansiot_sek_yht_of r,
   t.vero_eur + swedish_tax_eur_of r⟩

/-- The accumulated totals of the per-record rows written for one half of the
month, in record order. -/
def period_totals (records : List PayrollRecord) : PeriodTotals :=
  records.foldl update_period_totals ⟨0, 0, 0, 0, 0⟩

/-- The per-employee totals dict of `_write_combined_totals_inline`
(`employee_totals` / `grand_totals`). -/
structure CombinedTotals where
  km_korvauksia : ℚ
  ansiot_sek : ℚ
  paivarahat_sek : ℚ
  ansiot_sek_yht : ℚ
  vero_sek : ℚ
  vero_eur : ℚ
deriving DecidableEq

/-- One record's accumulation step inside `_write_combined_totals_inline`'s
`for record in records` loop. -/
def update_combined_totals (t : CombinedTotals) (r : PayrollRecord) : CombinedTotals :=
  ⟨t.km_korvauksia + travel_comp_of r,
   t.ansiot_sek + ansiot_sek_of r,
   t.paivarahat_sek + paivarahat_sek_of r,
   t.ansiot_sek_yht + (ansiot_sek_of r + paivarahat_sek_of r),
   t.vero_sek + swedish_tax_eur_of r / SEK_TO_EUR,
   t.vero_eur + swedish_tax_eur_of r⟩

/-- The YHTEENSÄ (combined) totals written for one employee:
`_write_combined_totals_inline` folded over that employee's records. -/
def employee_totals (records : List PayrollRecord) : CombinedTotals :=
  records.foldl update_combined_totals ⟨0, 0, 0, 0, 0, 0⟩

/-- Componentwise addition, mirroring the
`for key in grand_totals: grand_totals[key] += employee_totals[key]` loop. -/
def addCombined (a b : CombinedTotals) : CombinedTotals :=
  ⟨a.km_korvauksia + b.km_korvauksia, a.ansiot_sek + b.ansiot_sek,
   a.paivarahat_sek + b.paivarahat_sek, a.ansiot_sek_yht + b.ansiot_sek_yht,
   a.vero_sek + b.vero_sek, a.vero_eur + b.vero_eur⟩

/-- The records of one employee, in encounter order: the value list of the
`employee_records` grouping dict of `_write_combined_totals_inline`. -/
def records_of (eid : String) (records : List PayrollRecord) : List PayrollRecord :=
  records.filter (fun r => r.employee_id == eid)

/-- The distinct employee ids occurring in a record list (the key set of the
grouping dict; list order differs from Python's first-encounter order but the
totals below are sums, hence order-independent). -/
def group_ids (records : List PayrollRecord) : List String :=
  (records.map PayrollRecord.employee_id).dedup

/-- The grand-total row of `_write_combined_totals_inline`: the sum of every
employee's combined totals. -/
def grand_totals (records : List PayrollRecord) : CombinedTotals :=
  (group_ids records).foldl
    (fun acc eid => addCombined acc (employee_totals (records_of eid records)))
    ⟨0, 0, 0, 0, 0, 0⟩

/-- The first-half grouping of `MonthlyAllWorkersGenerator.generate`:
records whose pay-period start day is at most 15. -/
def first_half (records : List PayrollRecord) : List PayrollRecord :=
  records.filter (fun r => r.pay_period_start.day ≤ 15)

/-- The second-half grouping of `MonthlyAllWorkersGenerator.generate`. -/
def second_half (records : List PayrollRecord) : List PayrollRecord :=
  records.filter (fun r => ¬ r.pay_period_start.day ≤ 15)

/-- The hours-classification step of `PersonalTaxCalculator.
_calculate_annual_totals`: accumulates `(regular_hours, overtime_hours)`;
items with falsy (zero) quantity are skipped, code `'12101'` counts as
regular, codes `'12101_2'` and `'12102'` count as overtime. -/
def annual_hours_step (acc : ℚ × ℚ) (item : SalaryItem) : ℚ × ℚ :=
  if item.quantity ≠ 0 then
    if item.code == "12101" then (acc.1 + item.quantity, acc.2)
    else if item.code == "12101_2" || item.code == "12102" then
      (acc.1, acc.2 + item.quantity)
    else acc
  else acc

/-- `(regular_hours, overtime_hours)` accumulated over a record's salary
items by `_calculate_annual_totals`. -/
def annual_hours (items : List SalaryItem) : ℚ × ℚ :=
  items.foldl annual_hours_step (0, 0)

/-! ### Support lemmas -/

lemma foldl_add_sum (l : List ℚ) (a : ℚ) : l.foldl (· + ·) a = a + l.sum := by
  induction l generalizing a with
  | nil => simp
  | cons x xs ih => simp [ih, add_assoc]

lemma sum_map_add {α : Type} (f g : α → ℚ) (l : List α) :
    (l.map (fun x => f x + g x)).sum = (l.map f).sum + (l.map g).sum := by
  induction l with
  | nil => simp
  | cons x xs ih => simp [ih]; ring

lemma sum_map_ite_zero {α : Type} [DecidableEq α] (k : α) (c : ℚ)
    (ids : List α) (hk : k ∉ ids) :
    (ids.map (fun i => if k = i then c else 0)).sum = 0 := by
  induction ids with
  | nil => simp
  | cons i is ih =>
    simp only [List.mem_cons, not_or] at hk
    simp [if_neg hk.1, ih hk.2]

lemma sum_map_ite {α : Type} [DecidableEq α] (k : α) (c : ℚ) (ids : List α)
    (hnd : ids.Nodup) (hk : k ∈ ids) :
    (ids.map (fun i => if k = i then c else 0)).sum = c := by
  induction ids with
  | nil => exact absurd hk (List.not_mem_nil k)
  | cons i is ih =>
    rcases List.mem_cons.1 hk with h | h
    · subst h
      simp [sum_map_ite_zero k c is (List.nodup_cons.1 hnd).1]
    · have hki : ¬ k = i := fun he => (List.nodup_cons.1 hnd).1 (he ▸ h)
      simp [if_neg hki, ih (List.nodup_cons.1 hnd).2 h]

lemma foldl_update_period_totals_eq (rs : List PayrollRecord) :
    ∀ t : PeriodTotals,
      rs.foldl update_period_totals t =
        ⟨t.ansiot_eur + (rs.map ansiot_eur_of).sum,
         t.ansiot_sek + (rs.map ansiot_sek_of).sum,
         t.paivarahat_sek + (rs.map paivarahat_sek_of).sum,
         t.ansiot_sek_yht + (rs.map ansiot_sek_yht_of).sum,
         t.vero_eur + (rs.map swedish_tax_eur_of).sum⟩ := by
  induction rs with
  | nil => intro t; simp
  | cons r rest ih => intro t; simp [ih, update_period_totals, add_assoc]

lemma period_totals_eq (rs : List PayrollRecord) :
    period_totals rs =
      ⟨(rs.map ansiot_eur_of).sum, (rs.map ansiot_sek_of).sum,
       (rs.map paivarahat_sek_of).sum, (rs.map ansiot_sek_yht_of).sum,
       (rs.map swedish_tax_eur_of).sum⟩ := by
  simp [period_totals, foldl_update_period_totals_eq]

lemma foldl_update_combined_totals_eq (rs : List PayrollRecord) :
    ∀ t : CombinedTotals,
      rs.foldl update_combined_totals t =
        ⟨t.km_korvauksia + (rs.map travel_comp_of).sum,
         t.ansiot_sek + (rs.map ansiot_sek_of).sum,
         t.paivarahat_sek + (rs.map paivarahat_sek_of).sum,
         t.ansiot_sek_yht + (rs.map ansiot_sek_yht_of).sum,
         t.vero_sek + (rs.map (fun r => swedish_tax_eur_of r / SEK_TO_EUR)).sum,
         t.vero_eur + (rs.map swedish_tax_eur_of).sum⟩ := by
  induction rs with
  | nil => intro t; simp
  | cons r rest ih =>
    intro t
    simp [ih, update_combined_totals, add_assoc, ansiot_sek_yht_of]

lemma employee_totals_eq (rs : List PayrollRecord) :
    employee_totals rs =
      ⟨(rs.map travel_comp_of).sum, (rs.map ansiot_sek_of).sum,
       (rs.map paivarahat_sek_of).sum,
       (rs.map ansiot_sek_yht_of).sum,
       (rs.map (fun r => swedish_tax_eur_of r / SEK_TO_EUR)).sum,
       (rs.map swedish_tax_eur_of).sum⟩ := by
  simp [employee_totals, foldl_update_combined_totals_eq]

lemma foldl_addCombined_eq (h : String → CombinedTotals) (ids : List String) :
    ∀ t : CombinedTotals,
      ids.foldl (fun acc eid => addCombined acc (h eid)) t =
        ⟨t.km_korvauksia + (ids.map (fun e => (h e).km_korvauksia)).sum,
         t.ansiot_sek + (ids.map (fun e => (h e).ansiot_sek)).sum,
         t.paivarahat_sek + (ids.map (fun e => (h e).paivarahat_sek)).sum,
         t.ansiot_sek_yht + (ids.map (fun e => (h e).ansiot_sek_yht)).sum,
         t.vero_sek + (ids.map (fun e => (h e).vero_sek)).sum,
         t.vero_eur + (ids.map (fun e => (h e).vero_eur)).sum⟩ := by
  induction ids with
  | nil => intro t; simp
  | cons i is ih =>
    intro t
    rw [List.foldl_cons, ih]
    simp [addCombined, add_assoc]

lemma grand_totals_eq (rs : List PayrollRecord) :
    grand_totals rs =
      ⟨((group_ids rs).map (fun e => (employee_totals (records_of e rs)).km_korvauksia)).sum,
       ((group_ids rs).map (fun e => (employee_totals (records_of e rs)).ansiot_sek)).sum,
       ((group_ids rs).map (fun e => (employee_totals (records_of e rs)).paivarahat_sek)).sum,
       ((group_ids rs).map (fun e => (employee_totals (records_of e rs)).ansiot_sek_yht)).sum,
       ((group_ids rs).map (fun e => (employee_totals (records_of e rs)).vero_sek)).sum,
       ((group_ids rs).map (fun e => (employee_totals (records_of e rs)).vero_eur)).sum⟩ := by
  simp [grand_totals, foldl_addCombined_eq (fun e => employee_totals (records_of e rs))]

lemma records_of_cons (eid : String) (r : PayrollRecord) (rest : List PayrollRecord) :
    records_of eid (r :: rest) =
      if r.employee_id = eid then r :: records_of eid rest else records_of eid rest := by
  by_cases h : r.employee_id = eid <;> simp [records_of, List.filter_cons, h]

/-- Summing a per-record value over the per-employee fibers of a record list
recovers the sum over the whole list, for any id list that covers every
record's employee id exactly once. -/
lemma sum_fiber (v : PayrollRecord → ℚ) (rs : List PayrollRecord) :
    ∀ ids : List String, ids.Nodup → (∀ r ∈ rs, r.employee_id ∈ ids) →
      (ids.map (fun eid => ((records_of eid rs).map v).sum)).sum = (rs.map v).sum := by
  induction rs with
  | nil => intro ids _ _; simp [records_of]
  | cons r rest ih =>
    intro ids hnd hcov
    have hmem : r.employee_id ∈ ids := hcov r (List.mem_cons_self r rest)
    have hstep : ∀ eid : String,
        ((records_of eid (r :: rest)).map v).sum =
          (if r.employee_id = eid then v r else 0) +
            ((records_of eid rest).map v).sum := by
      intro eid
      rw [records_of_cons]
      by_cases h : r.employee_id = eid <;> simp [h]
    calc (ids.map (fun eid => ((records_of eid (r :: rest)).map v).sum)).sum
        = (ids.map (fun eid =>
            (if r.employee_id = eid then v r else 0) +
              ((records_of eid rest).map v).sum)).sum := by
          simp only [hstep]
      _ = (ids.map (fun eid => if r.employee_id = eid then v r else 0)).sum +
            (ids.map (fun eid => ((records_of eid rest).map v).sum)).sum :=
          sum_map_add _ _ ids
      _ = v r + (rest.map v).sum := by
          rw [sum_map_ite r.employee_id (v r) ids hnd hmem,
            ih ids hnd (fun x hx => hcov x (List.mem_cons_of_mem r hx))]
      _ = ((r :: rest).map v).sum := by simp

lemma group_ids_nodup (rs : List PayrollRecord) : (group_ids rs).Nodup :=
  List.nodup_dedup _

lemma mem_group_ids (rs : List PayrollRecord) (r : PayrollRecord) (hr : r ∈ rs) :
    r.employee_id ∈ group_ids rs :=
  List.mem_dedup.2 (List.mem_map_of_mem PayrollRecord.employee_id hr)

lemma gross_salary_eq (employee : Employee) (year month : ℕ)
    (h1 h2 h3 h4 h5 : ℚ) :
    (generate_payroll_record employee year month h1 h2 h3 h4 h5).gross_salary =
      17 * h1 + 17 * h2 + (17/2) * h3 + (141/100) * h4 + 600 := by
  simp [generate_payroll_record]
  ring

lemma gross_salary_nonneg (employee : Employee) (year month : ℕ)
    (h1 h2 h3 h4 h5 : ℚ) (hh1 : 0 ≤ h1) (hh2 : 0 ≤ h2) (hh3 : 0 ≤ h3) (hh4 : 0 ≤ h4) :
    0 ≤ (generate_payroll_record employee year month h1 h2 h3 h4 h5).gross_salary := by
  rw [gross_salary_eq]
  have := mul_nonneg (by norm_num : (0:ℚ) ≤ 17) hh1
  have := mul_nonneg (by norm_num : (0:ℚ) ≤ 17) hh2
  have := mul_nonneg (by norm_num : (0:ℚ) ≤ 17/2) hh3
  have := mul_nonneg (by norm_num : (0:ℚ) ≤ 141/100) hh4
  linarith

lemma record_deductions_eq (employee : Employee) (year month : ℕ)
    (h1 h2 h3 h4 h5 : ℚ) :
    (generate_payroll_record employee year month h1 h2 h3 h4 h5).deductions =
      swedish_deductions
        (generate_payroll_record employee year month h1 h2 h3 h4 h5).gross_salary
        (2072788/100) ++ [ennpid_deduction] := by
  simp [generate_payroll_record]

lemma net_payment_eq (employee : Employee) (year month : ℕ)
    (h1 h2 h3 h4 h5 : ℚ) :
    (generate_payroll_record employee year month h1 h2 h3 h4 h5).net_payment =
      (generate_payroll_record employee year month h1 h2 h3 h4 h5).gross_salary +
        ((generate_payroll_record employee year month h1 h2 h3 h4 h5).deductions.map
          Deduction.amount).sum +
        (generate_payroll_record employee year month h1 h2 h3 h4 h5).pension_insurance := by
  simp [generate_payroll_record, foldl_add_sum]
  ring

lemma pension_insurance_eq (employee : Employee) (year month : ℕ)
    (h1 h2 h3 h4 h5 : ℚ) :
    (generate_payroll_record employee year month h1 h2 h3 h4 h5).pension_insurance =
      -((generate_payroll_record employee year month h1 h2 h3 h4 h5).gross_salary *
        (715/10000)) := by
  simp [generate_payroll_record]

lemma health_insurance_eq (employee : Employee) (year month : ℕ)
    (h1 h2 h3 h4 h5 : ℚ) :
    (generate_payroll_record employee year month h1 h2 h3 h4 h5).health_insurance_daily =
      (generate_payroll_record employee year month h1 h2 h3 h4 h5).gross_salary *
        (84/10000) := by
  simp [generate_payroll_record]

lemma ytd_gross_eq (employee : Employee) (year month : ℕ) (h1 h2 h3 h4 h5 : ℚ) :
    (generate_payroll_record employee year month h1 h2 h3 h4 h5).year_to_date_gross =
      (generate_payroll_record employee year month h1 h2 h3 h4 h5).gross_salary *
        (month : ℚ) := by
  simp [generate_payroll_record]

lemma tax_withholding_eq (employee : Employee) (year month : ℕ) (h1 h2 h3 h4 h5 : ℚ) :
    (generate_payroll_record employee year month h1 h2 h3 h4 h5).tax_withholding =
      (if (generate_payroll_record employee year month h1 h2 h3 h4 h5).gross_salary *
            (month : ℚ) ≤ 39800
       then -((generate_payroll_record employee year month h1 h2 h3 h4 h5).gross_salary *
          (33/2) / 100)
       else -((generate_payroll_record employee year month h1 h2 h3 h4 h5).gross_salary *
          44 / 100)) := by
  simp [generate_payroll_record]

lemma swedish_deductions_amount_nonpos (g t : ℚ) :
    ∀ d ∈ swedish_deductions g t, d.amount ≤ 0 := by
  intro d hd
  by_cases hpos : g - t > 0
  · have h1 : 0 ≤ (g - t) * (3/10) :=
      mul_nonneg (le_of_lt hpos) (by norm_num)
    simp only [swedish_deductions, if_pos hpos] at hd
    split_ifs at hd with h2
    · rcases List.mem_cons.1 hd with h | h
      · subst h
        exact neg_nonpos.mpr h1
      · have hde : d = ⟨"VÄH", swedish_allowance_tax_desc, -(21778/100 : ℚ)⟩ := by
          simpa using h
        subst hde
        show -(21778/100 : ℚ) ≤ 0
        norm_num
    · simp at hd
  · have hpos2 : ¬ t < g := fun hlt => hpos (sub_pos.mpr hlt)
    simp [swedish_deductions, hpos2] at hd

/-! ### Claims -/

/-- C1, counterexample: for the record generated by
`mock_likeit._generate_payroll_record` from employee `sam`, January 2025,
60 regular / 0 overtime / 0 overtime-50 / 5 evening hours and 5 per-diem
days, `net_payment` differs from
`gross_salary + sum(deduction amounts) + pension_insurance + tax_withholding`
by 268.46325 EUR (= 1073853/4000), far beyond any 1-cent rounding tolerance:
the builder never subtracts `tax_withholding` from the net. -/
theorem claim_c1_counterexample :
    (generate_payroll_record sam 2025 1 60 0 0 5 5).net_payment -
        ((generate_payroll_record sam 2025 1 60 0 0 5 5).gross_salary +
          (((generate_payroll_record sam 2025 1 60 0 0 5 5).deductions.map
              Deduction.amount).sum +
            (generate_payroll_record sam 2025 1 60 0 0 5 5).pension_insurance +
            (generate_payroll_record sam 2025 1 60 0 0 5 5).tax_withholding)) =
      1073853/4000
    ∧ (1/100 : ℚ) < 1073853/4000 := by
  constructor
  · norm_num [generate_payroll_record, swedish_deductions, ennpid_deduction]
  · norm_num

/-- C1 (amended): for every record produced by
`mock_likeit._generate_payroll_record`,
`net_payment = gross_salary + sum(deduction amounts) + pension_insurance`
exactly — `tax_withholding` is NOT part of the net — and with non-negative
hour inputs the pension, the withholding and every deduction amount are
all ≤ 0. -/
theorem claim_c1_amended (employee : Employee) (year month : ℕ)
    (h1 h2 h3 h4 h5 : ℚ)
    (hh1 : 0 ≤ h1) (hh2 : 0 ≤ h2) (hh3 : 0 ≤ h3) (hh4 : 0 ≤ h4) :
    (generate_payroll_record employee year month h1 h2 h3 h4 h5).net_payment =
        (generate_payroll_record employee year month h1 h2 h3 h4 h5).gross_salary +
          ((generate_payroll_record employee year month h1 h2 h3 h4 h5).deductions.map
            Deduction.amount).sum +
          (generate_payroll_record employee year month h1 h2 h3 h4 h5).pension_insurance
    ∧ (generate_payroll_record employee year month h1 h2 h3 h4 h5).pension_insurance ≤ 0
    ∧ (generate_payroll_record employee year month h1 h2 h3 h4 h5).tax_withholding ≤ 0
    ∧ ∀ d ∈ (generate_payroll_record employee year month h1 h2 h3 h4 h5).deductions,
        d.amount ≤ 0 := by
  have hg := gross_salary_nonneg employee year month h1 h2 h3 h4 h5 hh1 hh2 hh3 hh4
  refine ⟨net_payment_eq employee year month h1 h2 h3 h4 h5, ?_, ?_, ?_⟩
  · rw [pension_insurance_eq]
    exact neg_nonpos.mpr (mul_nonneg hg (by norm_num))
  · rw [tax_withholding_eq]
    split_ifs
    · exact neg_nonpos.mpr (div_nonneg (mul_nonneg hg (by norm_num)) (by norm_num))
    · exact neg_nonpos.mpr (div_nonneg (mul_nonneg hg (by norm_num)) (by norm_num))
  · intro d hd
    rw [record_deductions_eq] at hd
    rcases List.mem_append.1 hd with h | h
    · exact swedish_deductions_amount_nonpos _ _ d h
    · have hde : d = ennpid_deduction := by simpa using h
      subst hde
      show (0 : ℚ) ≤ 0
      norm_num

/-- Witness for C1 (amended) at a concrete input. -/
theorem claim_c1_amended_witness :
    (generate_payroll_record sam 2025 1 60 0 0 5 5).net_payment =
        (generate_payroll_record sam 2025 1 60 0 0 5 5).gross_salary +
          ((generate_payroll_record sam 2025 1 60 0 0 5 5).deductions.map
            Deduction.amount).sum +
          (generate_payroll_record sam 2025 1 60 0 0 5 5).pension_insurance
    ∧ (generate_payroll_record sam 2025 1 60 0 0 5 5).pension_insurance ≤ 0
    ∧ (generate_payroll_record sam 2025 1 60 0 0 5 5).tax_withholding ≤ 0 :=
  ⟨(claim_c1_amended sam 2025 1 60 0 0 5 5 (by norm_num) (by norm_num)
      (by norm_num) (by norm_num)).1,
   (claim_c1_amended sam 2025 1 60 0 0 5 5 (by norm_num) (by norm_num)
      (by norm_num) (by norm_num)).2.1,
   (claim_c1_amended sam 2025 1 60 0 0 5 5 (by norm_num) (by norm_num)
      (by norm_num) (by norm_num)).2.2.1⟩

/-- C2: with `taxable = gross_salary - threshold`, the Swedish deduction
block produces no deductions when `taxable ≤ 0` and exactly two deductions
`-(taxable × 0.30)` and `-217.78`, both negative, when `taxable > 0`; for
gross 1000 and threshold 833.00 (the threshold instantiated by
`tests/reset_database.py`) the two amounts are -50.10 and -217.78; and the
record built by `mock_likeit` carries exactly this block (with its hard-coded
threshold 20727.88) plus the zero-amount `ENNPID` line. -/
theorem claim_c2 (gross_salary threshold : ℚ) :
    (gross_salary - threshold ≤ 0 →
      swedish_deductions gross_salary threshold = [])
    ∧ (0 < gross_salary - threshold →
        swedish_deductions gross_salary threshold =
          [⟨"VÄH", swedish_income_tax_desc, -((gross_salary - threshold) * (3/10))⟩,
           ⟨"VÄH", swedish_allowance_tax_desc, -(21778/100)⟩]
        ∧ -((gross_salary - threshold) * (3/10)) < 0
        ∧ -(21778/100 : ℚ) < 0)
    ∧ swedish_deductions 1000 833 =
        [⟨"VÄH", swedish_income_tax_desc, -(501/10)⟩,
         ⟨"VÄH", swedish_allowance_tax_desc, -(21778/100)⟩]
    ∧ ∀ (employee : Employee) (year month : ℕ) (h1 h2 h3 h4 h5 : ℚ),
        (generate_payroll_record employee year month h1 h2 h3 h4 h5).deductions =
          swedish_deductions
            (generate_payroll_record employee year month h1 h2 h3 h4 h5).gross_salary
            (2072788/100) ++ [ennpid_deduction] := by
  refine ⟨?_, ?_, ?_, ?_⟩
  · intro h
    have hpos2 : ¬ threshold < gross_salary := fun hlt => by
      have := sub_pos.mpr hlt
      linarith
    simp [swedish_deductions, hpos2]
  · intro h
    have hneg : -((gross_salary - threshold) * (3/10)) < 0 := by nlinarith
    have hlt : threshold < gross_salary := sub_pos.mp h
    refine ⟨?_, hneg, by norm_num⟩
    simp [swedish_deductions, hlt, hneg]
  · norm_num [swedish_deductions]
  · intro employee year month h1 h2 h3 h4 h5
    exact record_deductions_eq employee year month h1 h2 h3 h4 h5

/-- Witness for C2: Scenario B (gross 500 ≤ threshold 833 → no deductions)
and Scenario A (gross 1000, threshold 833 → deductions -50.10, -217.78). -/
theorem claim_c2_witness :
    swedish_deductions 500 833 = []
    ∧ swedish_deductions 1000 833 =
        [⟨"VÄH", swedish_income_tax_desc, -(501/10)⟩,
         ⟨"VÄH", swedish_allowance_tax_desc, -(21778/100)⟩] :=
  ⟨(claim_c2 500 833).1 (by norm_num), (claim_c2 1000 833).2.2.1⟩

/-- C8: every generated record has
`pension_insurance = -(gross_salary × 0.0715)` and
`health_insurance_daily = gross_salary × 0.0084`, and the net payment is
`gross_salary + sum(deduction amounts) + pension_insurance`: the pension is
subtracted, the health-insurance contribution is informational only and
never enters the net. -/
theorem claim_c8 (employee : Employee) (year month : ℕ) (h1 h2 h3 h4 h5 : ℚ) :
    (generate_payroll_record employee year month h1 h2 h3 h4 h5).pension_insurance =
        -((generate_payroll_record employee year month h1 h2 h3 h4 h5).gross_salary *
          (715/10000))
    ∧ (generate_payroll_record employee year month h1 h2 h3 h4 h5).health_insurance_daily =
        (generate_payroll_record employee year month h1 h2 h3 h4 h5).gross_salary *
          (84/10000)
    ∧ (generate_payroll_record employee year month h1 h2 h3 h4 h5).net_payment =
        (generate_payroll_record employee year month h1 h2 h3 h4 h5).gross_salary +
          ((generate_payroll_record employee year month h1 h2 h3 h4 h5).deductions.map
            Deduction.amount).sum +
          (generate_payroll_record employee year month h1 h2 h3 h4 h5).pension_insurance :=
  ⟨pension_insurance_eq employee year month h1 h2 h3 h4 h5,
   health_insurance_eq employee year month h1 h2 h3 h4 h5,
   net_payment_eq employee year month h1 h2 h3 h4 h5⟩

lemma gross_salary_ge_600 (employee : Employee) (year month : ℕ)
    (h1 h2 h3 h4 h5 : ℚ) (hh1 : 0 ≤ h1) (hh2 : 0 ≤ h2) (hh3 : 0 ≤ h3) (hh4 : 0 ≤ h4) :
    600 ≤ (generate_payroll_record employee year month h1 h2 h3 h4 h5).gross_salary := by
  rw [gross_salary_eq]
  have := mul_nonneg (by norm_num : (0:ℚ) ≤ 17) hh1
  have := mul_nonneg (by norm_num : (0:ℚ) ≤ 17) hh2
  have := mul_nonneg (by norm_num : (0:ℚ) ≤ 17/2) hh3
  have := mul_nonneg (by norm_num : (0:ℚ) ≤ 141/100) hh4
  linarith

/-- C3: the Finnish withholding of a generated record is decided by the YTD
gross *including* the current period (the mock simulates the YTD before the
period as `gross_salary × (month - 1)`, so the deciding value
`gross_salary × month` is exactly `ytd_before + gross_salary`, and it is the
value stored in the record): at most the annual limit 39800 the base rate
16.5% applies to this period's gross, above it the additional rate 44%
applies to this period's gross only; the result is a single negative scalar
(`tax_withholding`), while the only non-Swedish deduction line (`ENNPID`)
carries amount 0. -/
theorem claim_c3 (employee : Employee) (year month : ℕ) (h1 h2 h3 h4 h5 : ℚ)
    (hm : 1 ≤ month) (hh1 : 0 ≤ h1) (hh2 : 0 ≤ h2) (hh3 : 0 ≤ h3) (hh4 : 0 ≤ h4) :
    (generate_payroll_record employee year month h1 h2 h3 h4 h5).year_to_date_gross =
        (generate_payroll_record employee year month h1 h2 h3 h4 h5).gross_salary *
            ((month - 1 : ℕ) : ℚ) +
          (generate_payroll_record employee year month h1 h2 h3 h4 h5).gross_salary
    ∧ (generate_payroll_record employee year month h1 h2 h3 h4 h5).tax_withholding =
        (if (generate_payroll_record employee year month h1 h2 h3 h4 h5).gross_salary *
              ((month - 1 : ℕ) : ℚ) +
              (generate_payroll_record employee year month h1 h2 h3 h4 h5).gross_salary ≤
            39800
         then -((generate_payroll_record employee year month h1 h2 h3 h4 h5).gross_salary *
            (33/2) / 100)
         else -((generate_payroll_record employee year month h1 h2 h3 h4 h5).gross_salary *
            44 / 100))
    ∧ (generate_payroll_record employee year month h1 h2 h3 h4 h5).tax_withholding < 0
    ∧ (generate_payroll_record employee year month h1 h2 h3 h4 h5).deductions =
        swedish_deductions
          (generate_payroll_record employee year month h1 h2 h3 h4 h5).gross_salary
          (2072788/100) ++ [ennpid_deduction] := by
  have hc : ((month - 1 : ℕ) : ℚ) = (month : ℚ) - 1 := by
    rw [Nat.cast_sub hm, Nat.cast_one]
  have key : (generate_payroll_record employee year month h1 h2 h3 h4 h5).gross_salary *
        ((month - 1 : ℕ) : ℚ) +
        (generate_payroll_record employee year month h1 h2 h3 h4 h5).gross_salary =
      (generate_payroll_record employee year month h1 h2 h3 h4 h5).gross_salary *
        (month : ℚ) := by
    rw [hc]; ring
  have hgpos : 0 < (generate_payroll_record employee year month h1 h2 h3 h4 h5).gross_salary := by
    have := gross_salary_ge_600 employee year month h1 h2 h3 h4 h5 hh1 hh2 hh3 hh4
    linarith
  refine ⟨?_, ?_, ?_, record_deductions_eq employee year month h1 h2 h3 h4 h5⟩
  · rw [ytd_gross_eq, key]
  · rw [key]
    exact tax_withholding_eq employee year month h1 h2 h3 h4 h5
  · rw [tax_withholding_eq]
    split_ifs
    · exact neg_lt_zero.mpr (div_pos (mul_pos hgpos (by norm_num)) (by norm_num))
    · exact neg_lt_zero.mpr (div_pos (mul_pos hgpos (by norm_num)) (by norm_num))

/-- Witness for C3 at a concrete input (January, base-rate branch). -/
theorem claim_c3_witness :
    (generate_payroll_record sam 2025 1 60 0 0 5 5).year_to_date_gross =
        (generate_payroll_record sam 2025 1 60 0 0 5 5).gross_salary * ((1 - 1 : ℕ) : ℚ) +
          (generate_payroll_record sam 2025 1 60 0 0 5 5).gross_salary
    ∧ (generate_payroll_record sam 2025 1 60 0 0 5 5).tax_withholding < 0 :=
  ⟨(claim_c3 sam 2025 1 60 0 0 5 5 (by norm_num) (by norm_num) (by norm_num)
      (by norm_num) (by norm_num)).1,
   (claim_c3 sam 2025 1 60 0 0 5 5 (by norm_num) (by norm_num) (by norm_num)
      (by norm_num) (by norm_num)).2.2.1⟩

/-- C5, counterexample: two records of the same employee for chronologically
ordered periods (November 2025, then December 2025) built by
`mock_likeit._generate_payroll_record` with hour draws inside the generator's
documented ranges carry a *decreasing* YTD gross (24130.15 then 19524.60):
the YTD the mock stores is `gross_salary × month` with an independently drawn
gross each call, so it is not monotone, and no `OutOfOrderUpdateError` (or
any ordering validation) exists anywhere in the repository. -/
theorem claim_c5_counterexample :
    (generate_payroll_record sam 2025 11 80 10 5 15 5).employee_id =
        (generate_payroll_record sam 2025 12 60 0 0 5 5).employee_id
    ∧ date_le (generate_payroll_record sam 2025 11 80 10 5 15 5).pay_period_end
        (generate_payroll_record sam 2025 12 60 0 0 5 5).pay_period_start
    ∧ (generate_payroll_record sam 2025 12 60 0 0 5 5).year_to_date_gross <
        (generate_payroll_record sam 2025 11 80 10 5 15 5).year_to_date_gross := by
  refine ⟨rfl, by decide, ?_⟩
  rw [ytd_gross_eq, ytd_gross_eq, gross_salary_eq, gross_salary_eq]
  norm_num

/-- C5 (amended): the YTD gross stored in a record equals
`gross_salary × month`; across chronologically ordered months it is
non-decreasing whenever the work inputs (hence the gross) are unchanged —
with varying inputs it can decrease, and the code performs no out-of-order
validation (no `OutOfOrderUpdateError` exists in the repository). -/
theorem claim_c5_amended (employee : Employee) (year m1 m2 : ℕ)
    (h1 h2 h3 h4 h5 : ℚ) (hm : m1 ≤ m2)
    (hh1 : 0 ≤ h1) (hh2 : 0 ≤ h2) (hh3 : 0 ≤ h3) (hh4 : 0 ≤ h4) :
    (generate_payroll_record employee year m1 h1 h2 h3 h4 h5).year_to_date_gross ≤
      (generate_payroll_record employee year m2 h1 h2 h3 h4 h5).year_to_date_gross := by
  rw [ytd_gross_eq, ytd_gross_eq, gross_salary_eq, gross_salary_eq]
  have := mul_nonneg (by norm_num : (0:ℚ) ≤ 17) hh1
  have := mul_nonneg (by norm_num : (0:ℚ) ≤ 17) hh2
  have := mul_nonneg (by norm_num : (0:ℚ) ≤ 17/2) hh3
  have := mul_nonneg (by norm_num : (0:ℚ) ≤ 141/100) hh4
  have hmq : (m1 : ℚ) ≤ (m2 : ℚ) := by exact_mod_cast hm
  have hG : (0:ℚ) ≤ 17 * h1 + 17 * h2 + 17/2 * h3 + 141/100 * h4 + 600 := by linarith
  exact mul_le_mul_of_nonneg_left hmq hG

/-- Witness for C5 (amended): same inputs, January then February. -/
theorem claim_c5_amended_witness :
    (generate_payroll_record sam 2025 1 60 0 0 5 5).year_to_date_gross ≤
      (generate_payroll_record sam 2025 2 60 0 0 5 5).year_to_date_gross :=
  claim_c5_amended sam 2025 1 2 60 0 0 5 5 (by norm_num) (by norm_num) (by norm_num)
    (by norm_num) (by norm_num)

/-- C6, counterexample: two deductions sharing the code `VÄH` but with
different description texts are classified differently by
`_classify_deduction` (`tax` vs `other`), and are attributed differently as
Swedish tax by the `'Swedish' in description or 'Ruotsin' in description`
test: classification is driven by the description, not by a tag in the
code field. -/
theorem claim_c6_counterexample :
    classify_deduction ("VÄH") (swedish_income_tax_desc) = "tax"
    ∧ classify_deduction ("VÄH") ("Jäsenmaksu") = "other"
    ∧ is_swedish_deduction ⟨"VÄH", swedish_income_tax_desc, -(501/10)⟩ = true
    ∧ is_swedish_deduction ⟨"VÄH", "Jäsenmaksu", -(501/10)⟩ = false
    ∧ ("tax" : String) ≠ "other" := by
  refine ⟨?_, ?_, ?_, ?_, ?_⟩ <;> decide

/-- C6 (amended): deduction classification into tax / insurance / other, and
Swedish-tax attribution, are determined by the description text alone — the
code field is ignored entirely, so any two deductions with the same
description classify identically whatever their codes, and the
classification always lands in the three-element set. -/
theorem claim_c6_amended (c1 c2 d : String) (a1 a2 : ℚ) :
    classify_deduction c1 d = classify_deduction c2 d
    ∧ is_swedish_deduction ⟨c1, d, a1⟩ = is_swedish_deduction ⟨c2, d, a2⟩
    ∧ (classify_deduction c1 d = "tax" ∨ classify_deduction c1 d = "insurance" ∨
        classify_deduction c1 d = "other") := by
  refine ⟨rfl, rfl, ?_⟩
  unfold classify_deduction
  split_ifs <;> simp

/-- C7: the currency round-trip
`to_primary (to_secondary x rate) rate = x` holds exactly (hence within any
rounding tolerance) for every positive rate, where `to_secondary` is the
source's EUR→SEK division by the fixed rate (the spreadsheet generators'
`ansiot_sek` column is literally this conversion at rate `SEK_TO_EUR =
0.086`) and `to_primary` is the spec-modelled inverse multiplication. -/
theorem claim_c7 (x rate : ℚ) (hr : 0 < rate) :
    to_primary (to_secondary x rate) rate = x
    ∧ to_secondary x SEK_TO_EUR = x / (86/1000)
    ∧ ∀ r : PayrollRecord, ansiot_sek_of r = to_secondary (ansiot_eur_of r) SEK_TO_EUR := by
  refine ⟨?_, rfl, fun r => rfl⟩
  unfold to_primary to_secondary
  exact div_mul_cancel₀ x (ne_of_gt hr)

/-- Witness for C7 at the source's own rate 0.086. -/
theorem claim_c7_witness :
    to_primary (to_secondary 1627 (86/1000)) (86/1000) = 1627 :=
  (claim_c7 1627 (86/1000) (by norm_num)).1

/-- C10: every salary-item code starting with `'12101'` — including the
overtime code `'12101_2'` — is classified as `'salary'` by the persistence
classifier `_classify_salary_item`, while `_calculate_annual_totals` counts
the quantity of any item with code `'12101_2'` or `'12102'` as overtime
hours (and not as regular hours): the same code `'12101_2'` is regular
salary for one operation and overtime for the other. -/
theorem claim_c10 :
    (∀ code : String, strStarts ("12101") code = true →
      classify_salary_item code = "salary")
    ∧ classify_salary_item ("12101_2") = "salary"
    ∧ (∀ it : SalaryItem, it.code = "12101_2" → it.quantity ≠ 0 →
        annual_hours [it] = (0, it.quantity))
    ∧ annual_hours [⟨"12102", "Ylityö 50%", 3, 17/2, 51/2⟩] = (0, 3) := by
  refine ⟨?_, ?_, ?_, ?_⟩
  · intro code h
    simp [classify_salary_item, h]
  · decide
  · intro it hc hq
    obtain ⟨code, desc, q, rate, total⟩ := it
    simp only at hc
    subst hc
    simp only [annual_hours, List.foldl, annual_hours_step]
    rw [if_pos hq]
    simp
  · norm_num [annual_hours, annual_hours_step]
    decide

/-- Witness for C10 at the concrete overtime item of the mock generator. -/
theorem claim_c10_witness :
    classify_salary_item ("12101_2") = "salary"
    ∧ annual_hours [⟨"12101_2", "Aikatyö YT", 7, 17, 119⟩] = (0, 7) :=
  ⟨claim_c10.2.1,
   claim_c10.2.2.1 ⟨"12101_2", "Aikatyö YT", 7, 17, 119⟩ rfl (by norm_num)⟩

lemma records_of_append (eid : String) (a b : List PayrollRecord) :
    records_of eid (a ++ b) = records_of eid a ++ records_of eid b := by
  simp [records_of]

lemma grand_col_eq (f : PayrollRecord → ℚ) (rs : List PayrollRecord) :
    ((group_ids rs).map (fun e => ((records_of e rs).map f).sum)).sum = (rs.map f).sum :=
  sum_fiber f rs (group_ids rs) (group_ids_nodup rs) (fun r hr => mem_group_ids rs r hr)

/-- C4: in the monthly all-workers aggregation, for every numeric column
written both in the half-period sections and in the YHTEENSÄ section
(`ansiot_sek`, `paivarahat_sek`, `ansiot_sek_yht`, `vero_eur`), each
employee's combined (YHTEENSÄ) total over `first_half ++ second_half` — the
record list `generate` passes to `_write_combined_totals_inline` — equals the
sum of that employee's first-half rows plus second-half rows, and the
grand-total row (which the code accumulates as the sum of all employees'
combined totals) equals the sum over both halves of all employees' rows. -/
theorem claim_c4 (records : List PayrollRecord) (eid : String) :
    ((employee_totals (records_of eid (first_half records ++ second_half records))).ansiot_sek =
        (period_totals (records_of eid (first_half records))).ansiot_sek +
          (period_totals (records_of eid (second_half records))).ansiot_sek
      ∧ (employee_totals (records_of eid (first_half records ++ second_half records))).paivarahat_sek =
          (period_totals (records_of eid (first_half records))).paivarahat_sek +
            (period_totals (records_of eid (second_half records))).paivarahat_sek
      ∧ (employee_totals (records_of eid (first_half records ++ second_half records))).ansiot_sek_yht =
          (period_totals (records_of eid (first_half records))).ansiot_sek_yht +
            (period_totals (records_of eid (second_half records))).ansiot_sek_yht
      ∧ (employee_totals (records_of eid (first_half records ++ second_half records))).vero_eur =
          (period_totals (records_of eid (first_half records))).vero_eur +
            (period_totals (records_of eid (second_half records))).vero_eur)
    ∧ ((grand_totals (first_half records ++ second_half records)).ansiot_sek =
        (period_totals (first_half records)).ansiot_sek +
          (period_totals (second_half records)).ansiot_sek
      ∧ (grand_totals (first_half records ++ second_half records)).paivarahat_sek =
          (period_totals (first_half records)).paivarahat_sek +
            (period_totals (second_half records)).paivarahat_sek
      ∧ (grand_totals (first_half records ++ second_half records)).ansiot_sek_yht =
          (period_totals (first_half records)).ansiot_sek_yht +
            (period_totals (second_half records)).ansiot_sek_yht
      ∧ (grand_totals (first_half records ++ second_half records)).vero_eur =
          (period_totals (first_half records)).vero_eur +
            (period_totals (second_half records)).vero_eur) := by
  constructor
  · refine ⟨?_, ?_, ?_, ?_⟩ <;>
      simp [employee_totals_eq, period_totals_eq, records_of_append]
  · refine ⟨?_, ?_, ?_, ?_⟩ <;>
      simp [grand_totals_eq, employee_totals_eq, period_totals_eq, grand_col_eq]

lemma daysInMonth_ge_28 (y m : ℕ) : 28 ≤ daysInMonth y m := by
  unfold daysInMonth
  split_ifs <;> norm_num

/-- C9: every pay period the repository constructs satisfies start ≤ end —
both the single full-month period of `mock_likeit` (day 1 to end of month)
and the two periods of the repository's period supplier
`get_pay_periods_for_month`; the latter yields exactly two periods whose
windows (day 1-14 and day 15-end of month, the caller-supplied scheme
anticipated by the claim's own exception clause) partition the days of the
month disjointly; and the monthly aggregation groups a record into the first
half exactly when its `pay_period_start.day ≤ 15`, otherwise into the
second half. -/
theorem claim_c9 (employee : Employee) (year month : ℕ) (h1 h2 h3 h4 h5 : ℚ) :
    date_le (generate_payroll_record employee year month h1 h2 h3 h4 h5).pay_period_start
      (generate_payroll_record employee year month h1 h2 h3 h4 h5).pay_period_end
    ∧ (∀ p ∈ get_pay_periods_for_month year month, date_le p.1 p.2.1)
    ∧ (get_pay_periods_for_month year month).length = 2
    ∧ (∀ d : ℕ, (1 ≤ d ∧ d ≤ daysInMonth year month) ↔
        ((1 ≤ d ∧ d ≤ 14) ∨ (15 ≤ d ∧ d ≤ daysInMonth year month)))
    ∧ (∀ d : ℕ, ¬ ((1 ≤ d ∧ d ≤ 14) ∧ (15 ≤ d ∧ d ≤ daysInMonth year month)))
    ∧ (∀ (rs : List PayrollRecord) (r : PayrollRecord),
        (r ∈ first_half rs ↔ r ∈ rs ∧ r.pay_period_start.day ≤ 15)
        ∧ (r ∈ second_half rs ↔ r ∈ rs ∧ ¬ r.pay_period_start.day ≤ 15)) := by
  have h28 := daysInMonth_ge_28 year month
  refine ⟨?_, ?_, rfl, ?_, ?_, ?_⟩
  · simp only [generate_payroll_record]
    split_ifs <;> simp [date_le] <;> omega
  · intro p hp
    simp only [get_pay_periods_for_month, List.mem_cons,
      List.not_mem_nil, or_false] at hp
    rcases hp with h | h <;> subst h
    · simp [date_le]
    · split_ifs <;> simp [date_le] <;> omega
  · intro d; omega
  · intro d; omega
  · intro rs r
    constructor
    · simp [first_half, List.mem_filter]
    · simp [second_half, List.mem_filter]

/-- Witness for C4 at a concrete one-record list. -/
theorem claim_c4_witness :
    (employee_totals (records_of ("01012020-123X")
        (first_half [generate_payroll_record sam 2025 1 60 0 0 5 5] ++
          second_half [generate_payroll_record sam 2025 1 60 0 0 5 5]))).ansiot_sek =
      (period_totals (records_of ("01012020-123X")
          (first_half [generate_payroll_record sam 2025 1 60 0 0 5 5]))).ansiot_sek +
        (period_totals (records_of ("01012020-123X")
          (second_half [generate_payroll_record sam 2025 1 60 0 0 5 5]))).ansiot_sek :=
  (claim_c4 [generate_payroll_record sam 2025 1 60 0 0 5 5] ("01012020-123X")).1.1

/-- Witness for C6 (amended) at concrete codes and a concrete description. -/
theorem claim_c6_amended_witness :
    classify_deduction ("VÄH") ("Ennakonpidätys") =
      classify_deduction ("ENNPID") ("Ennakonpidätys") :=
  (claim_c6_amended "VÄH" "ENNPID" "Ennakonpidätys" 0 0).1

/-- Witness for C8 at a concrete input. -/
theorem claim_c8_witness :
    (generate_payroll_record sam 2025 1 60 0 0 5 5).pension_insurance =
        -((generate_payroll_record sam 2025 1 60 0 0 5 5).gross_salary * (715/10000))
    ∧ (generate_payroll_record sam 2025 1 60 0 0 5 5).health_insurance_daily =
        (generate_payroll_record sam 2025 1 60 0 0 5 5).gross_salary * (84/10000) :=
  ⟨(claim_c8 sam 2025 1 60 0 0 5 5).1, (claim_c8 sam 2025 1 60 0 0 5 5).2.1⟩

/-- Witness for C9 at February 2025. -/
theorem claim_c9_witness :
    date_le (generate_payroll_record sam 2025 2 60 0 0 5 5).pay_period_start
      (generate_payroll_record sam 2025 2 60 0 0 5 5).pay_period_end
    ∧ (get_pay_periods_for_month 2025 2).length = 2 :=
  ⟨(claim_c9 sam 2025 2 60 0 0 5 5).1, (claim_c9 sam 2025 2 60 0 0 5 5).2.2.1⟩

end Payroll
